import Mathlib

/-!
Verification development for `src/data/bcc_datamodule.py`
(`BreastCancerDataModule`, a PyTorch-Lightning data module).

The module is embedded shallowly:

* `TStep` mirrors the torchvision transform constructors used in
  `__init__`; a pipeline is a `List TStep`.
* `Handle` models the value returned by one invocation of the external
  source adapter `DeepLakeDataset(data_dir, transform)`.  Besides the
  source reference, its length and the transform it was built with, a
  handle records `callId`, the ordinal of the adapter invocation that
  produced it, so that "the adapter was invoked again" and "the stored
  handle was replaced" are observable in the model.
* `DM` mirrors the mutable instance state of `BreastCancerDataModule`
  (`ds_train`/`ds_val`/`ds_test`, the three transform pipelines, the four
  `data_*` slots and the hyperparameters), plus `calls`, the running count
  of adapter invocations.
* The adapter itself is an environment `env : String → Nat` giving, for
  each source reference, the length of the dataset the adapter returns
  (the adapter is deterministic per source; only the length is relevant
  to the module's control flow).
* `setup` translates `BreastCancerDataModule.setup` statement by
  statement; a Python `raise` becomes returning `some err` together with
  the state at the moment of the raise (mutations to `self` made before
  the raise persist, exactly as in Python).
* `train_dataloader` / `val_dataloader` / `test_dataloader` translate the
  three getter methods; they build a `Loader` record from the stored slot
  and the hyperparameters with the literal `shuffle` flags of the source.
* `loaderRun` models one full iteration (one epoch) of a loader:
  batching into `batch_size`-chunks of the index sequence, which for an
  unshuffled loader is insertion order `List.range len` and for a
  shuffled loader is the epoch's permutation `perm len` drawn from the
  external RNG.
-/

namespace BCC

/-- A torchvision transform step, as constructed in
`BreastCancerDataModule.__init__`. -/
inductive TStep where
  | toPILImage : TStep
  | grayscale (numOutputChannels : Nat) : TStep
  | resize (height width : Nat) : TStep
  | randomRotation (degrees : Nat) : TStep
  | toTensor : TStep
  | normalize (mean std : List Nat) : TStep
deriving DecidableEq, Repr

/-- The handle returned by one invocation of the external source adapter
`DeepLakeDataset(data_dir=source, transform=transform)`.  `callId` is the
ordinal of the adapter invocation that produced this handle, making handle
identity observable. -/
structure Handle where
  source : String
  callId : Nat
  len : Nat
  transform : List TStep
deriving DecidableEq, Repr

/-- The instance state of `BreastCancerDataModule`: the three source
references, the hyperparameters saved by `save_hyperparameters`, the three
transform pipelines built in `__init__`, the four `data_*` slots
(`data_predict` is only ever assigned inside `setup('predict')`), and
`calls`, the number of adapter invocations made so far. -/
structure DM where
  ds_train : String
  ds_val : String
  ds_test : String
  input_size : Nat × Nat
  batch_size : Nat
  num_workers : Nat
  pin_memory : Bool
  train_transform : List TStep
  val_transform : List TStep
  test_transform : List TStep
  data_train : Option Handle
  data_val : Option Handle
  data_test : Option Handle
  data_predict : Option Handle
  calls : Nat
deriving DecidableEq, Repr

/-- Translation of `BreastCancerDataModule.__init__`: stores the three source references
and the hyperparameters, builds the three transform pipelines with the
literal constants of the source (`Resize((256, 256))`,
`RandomRotation(20)`, `Normalize(mean=[0], std=[1])`; `input_size` is
stored but not used by any pipeline), and initialises the data slots to
`None`. -/
def init (train_dir val_dir test_dir : String) (input_size : Nat × Nat)
    (batch_size num_workers : Nat) (pin_memory : Bool) : DM :=
  { ds_train := train_dir
    ds_val := val_dir
    ds_test := test_dir
    input_size := input_size
    batch_size := batch_size
    num_workers := num_workers
    pin_memory := pin_memory
    train_transform :=
      [.toPILImage, .grayscale 1, .resize 256 256, .randomRotation 20,
       .toTensor, .normalize [0] [1]]
    val_transform :=
      [.toPILImage, .grayscale 1, .resize 256 256, .toTensor,
       .normalize [0] [1]]
    test_transform :=
      [.toPILImage, .grayscale 1, .resize 256 256, .toTensor,
       .normalize [0] [1]]
    data_train := none
    data_val := none
    data_test := none
    data_predict := none
    calls := 0 }

/-- The exceptions raised by `setup` (`raise ValueError(msg)`). -/
inductive DMError where
  | valueError (msg : String) : DMError
deriving DecidableEq, Repr

/-- The stage lists of the two `stage in [...]` tests in `setup`. -/
def trainStages : List (Option String) := [some "train", some "fit", none]

def valStages : List (Option String) := [some "validation", some "fit", none]

/-- First block of `setup`: `if stage in ['train','fit',None] and
self.data_train is None:` resolve `data_train` from `ds_train` with
`train_transform`, then `raise ValueError('Train dataset is empty.')`
when the resolved length is 0 (the assignment to `self.data_train`
happens before the length check). -/
def setupTrainPhase (env : String → Nat) (stage : Option String) (s : DM) :
    DM × Option DMError :=
  if stage ∈ trainStages then
    match s.data_train with
    | some _ => (s, none)
    | none =>
      let h : Handle := ⟨s.ds_train, s.calls, env s.ds_train, s.train_transform⟩
      let s' := { s with data_train := some h, calls := s.calls + 1 }
      if h.len = 0 then (s', some (.valueError "Train dataset is empty."))
      else (s', none)
  else (s, none)

/-- Second block of `setup`: `if stage in ['validation','fit',None]:`
resolve `data_val` (if `None`) and then `data_test` (if `None`), each
raising `ValueError` when empty; a raise on the validation dataset aborts
before the test dataset is touched. -/
def setupValTestPhase (env : String → Nat) (stage : Option String) (s : DM) :
    DM × Option DMError :=
  if stage ∈ valStages then
    let r1 : DM × Option DMError :=
      match s.data_val with
      | some _ => (s, none)
      | none =>
        let h : Handle := ⟨s.ds_val, s.calls, env s.ds_val, s.val_transform⟩
        let s' := { s with data_val := some h, calls := s.calls + 1 }
        if h.len = 0 then (s', some (.valueError "Validation dataset is empty."))
        else (s', none)
    match r1 with
    | (s1, some e) => (s1, some e)
    | (s1, none) =>
      match s1.data_test with
      | some _ => (s1, none)
      | none =>
        let h : Handle := ⟨s1.ds_test, s1.calls, env s1.ds_test, s1.test_transform⟩
        let s2 := { s1 with data_test := some h, calls := s1.calls + 1 }
        if h.len = 0 then (s2, some (.valueError "Test dataset is empty."))
        else (s2, none)
  else (s, none)

/-- Third block of `setup`: `if stage == 'predict': if self.data_test is
None:` resolve `data_predict` from `ds_test` with `test_transform`
(note: the guard reads `data_test`, the assignment writes
`data_predict`), raising `ValueError` when empty. -/
def setupPredictPhase (env : String → Nat) (stage : Option String) (s : DM) :
    DM × Option DMError :=
  if stage = some "predict" then
    match s.data_test with
    | some _ => (s, none)
    | none =>
      let h : Handle := ⟨s.ds_test, s.calls, env s.ds_test, s.test_transform⟩
      let s' := { s with data_predict := some h, calls := s.calls + 1 }
      if h.len = 0 then (s', some (.valueError "Predict dataset is empty."))
      else (s', none)
  else (s, none)

/-- Sequencing of `setup` blocks: a raise (`some e`) in an earlier block
aborts the later blocks, keeping the state at the moment of the raise
(Python mutates `self` in place before raising). -/
def pbind (r : DM × Option DMError) (f : DM → DM × Option DMError) :
    DM × Option DMError :=
  match r with
  | (s1, some e) => (s1, some e)
  | (s1, none) => f s1

@[simp]
theorem pbind_ok (s : DM) (f : DM → DM × Option DMError) :
    pbind (s, none) f = f s := rfl

@[simp]
theorem pbind_err (s : DM) (e : DMError) (f : DM → DM × Option DMError) :
    pbind (s, some e) f = (s, some e) := rfl

/-- Translation of `BreastCancerDataModule.setup(stage)`: the three blocks in source
order. -/
def setup (env : String → Nat) (stage : Option String) (s : DM) :
    DM × Option DMError :=
  pbind (setupTrainPhase env stage s) fun s1 =>
    pbind (setupValTestPhase env stage s1) fun s2 =>
      setupPredictPhase env stage s2

/-- The `DataLoader(...)` value built by the three loader getters: the
stored slot (possibly `none`) and the keyword arguments of the call. -/
structure Loader where
  dataset : Option Handle
  batch_size : Nat
  num_workers : Nat
  pin_memory : Bool
  shuffle : Bool
deriving DecidableEq, Repr

/-- Translation of `BreastCancerDataModule.train_dataloader`: a loader over `data_train`
with `shuffle=True`; no check that the slot is resolved. -/
def train_dataloader (s : DM) : Loader :=
  ⟨s.data_train, s.batch_size, s.num_workers, s.pin_memory, true⟩

/-- Translation of `BreastCancerDataModule.val_dataloader`: a loader over `data_val`
with `shuffle=False`; no check that the slot is resolved. -/
def val_dataloader (s : DM) : Loader :=
  ⟨s.data_val, s.batch_size, s.num_workers, s.pin_memory, false⟩

/-- Translation of `BreastCancerDataModule.test_dataloader`: a loader over `data_test`
with `shuffle=False`; no check that the slot is resolved. -/
def test_dataloader (s : DM) : Loader :=
  ⟨s.data_test, s.batch_size, s.num_workers, s.pin_memory, false⟩

/-- Split a list into consecutive chunks of `B` elements (the last chunk
may be shorter); the batching performed by a `DataLoader` with
`batch_size = B` and `drop_last` left at its default `False`. -/
def chunk {α : Type} (B : Nat) (l : List α) : List (List α) :=
  if hB : B = 0 then []
  else
    match l with
    | [] => []
    | x :: xs => (x :: xs).take B :: chunk B ((x :: xs).drop B)
termination_by l.length
decreasing_by
  simp only [List.length_drop, List.length_cons]
  omega

/-- One full iteration (epoch) of a loader: the dataset indices are
batched into `batch_size`-chunks; an unshuffled loader visits them in
insertion order `List.range len`, a shuffled loader visits them in the
epoch's permutation `perm len` drawn from the external RNG.  Iterating a
loader whose dataset slot is `none` has no well-defined result. -/
def loaderRun (l : Loader) (perm : Nat → List Nat) : Option (List (List Nat)) :=
  match l.dataset with
  | none => none
  | some h =>
    some (chunk l.batch_size (if l.shuffle then perm h.len else List.range h.len))

/-- Fixture: an adapter environment in which every source resolves to
five samples. -/
def envFive : String → Nat := fun _ => 5

/-- Fixture: an adapter environment in which the source `"va"` resolves
to zero samples and every other source to five. -/
def envValZero : String → Nat := fun src => if src = "va" then 0 else 5

/-- Fixture: a freshly-constructed module over sources `"tr"`, `"va"`,
`"te"` with the constructor defaults (`input_size=(600,500)`,
`batch_size=64`, `num_workers=0`, `pin_memory=False`). -/
def dmFresh : DM := init "tr" "va" "te" (600, 500) 64 0 false

/-- Fixture: like `dmFresh` but with `batch_size=4`. -/
def dmB4 : DM := init "tr" "va" "te" (600, 500) 4 0 false

/-! ### Characterization lemmas for the three `setup` blocks -/

theorem trainPhase_not_mem (env : String → Nat) (stage : Option String) (s : DM)
    (h : stage ∉ trainStages) : setupTrainPhase env stage s = (s, none) := by
  simp [setupTrainPhase, h]

theorem trainPhase_resolved (env : String → Nat) (stage : Option String) (s : DM)
    (h' : Handle) (hs : s.data_train = some h') :
    setupTrainPhase env stage s = (s, none) := by
  unfold setupTrainPhase
  rw [hs]
  split <;> rfl

theorem trainPhase_go (env : String → Nat) (stage : Option String) (s : DM)
    (hmem : stage ∈ trainStages) (hs : s.data_train = none) :
    setupTrainPhase env stage s =
      ({ s with
          data_train := some ⟨s.ds_train, s.calls, env s.ds_train, s.train_transform⟩,
          calls := s.calls + 1 },
       if env s.ds_train = 0 then some (.valueError "Train dataset is empty.")
       else none) := by
  unfold setupTrainPhase
  rw [if_pos hmem, hs]
  simp
  split <;> simp [*]

theorem predictPhase_not_mem (env : String → Nat) (stage : Option String) (s : DM)
    (h : stage ≠ some "predict") : setupPredictPhase env stage s = (s, none) := by
  simp [setupPredictPhase, h]

theorem predictPhase_test_resolved (env : String → Nat) (stage : Option String)
    (s : DM) (h' : Handle) (hs : s.data_test = some h') :
    setupPredictPhase env stage s = (s, none) := by
  unfold setupPredictPhase
  rw [hs]
  split <;> rfl

theorem predictPhase_go (env : String → Nat) (s : DM) (hs : s.data_test = none) :
    setupPredictPhase env (some "predict") s =
      ({ s with
          data_predict := some ⟨s.ds_test, s.calls, env s.ds_test, s.test_transform⟩,
          calls := s.calls + 1 },
       if env s.ds_test = 0 then some (.valueError "Predict dataset is empty.")
       else none) := by
  unfold setupPredictPhase
  rw [if_pos rfl, hs]
  simp
  split <;> simp [*]

theorem valTestPhase_not_mem (env : String → Nat) (stage : Option String) (s : DM)
    (h : stage ∉ valStages) : setupValTestPhase env stage s = (s, none) := by
  simp [setupValTestPhase, h]

theorem valTestPhase_both_resolved (env : String → Nat) (stage : Option String)
    (s : DM) (hv ht : Handle) (hsv : s.data_val = some hv)
    (hst : s.data_test = some ht) :
    setupValTestPhase env stage s = (s, none) := by
  unfold setupValTestPhase
  rw [hsv]
  split
  · simp only
    rw [hst]
  · rfl

theorem valTestPhase_val_resolved_test_none (env : String → Nat)
    (stage : Option String) (s : DM) (hv : Handle)
    (hmem : stage ∈ valStages) (hsv : s.data_val = some hv)
    (hst : s.data_test = none) :
    setupValTestPhase env stage s =
      ({ s with
          data_test := some ⟨s.ds_test, s.calls, env s.ds_test, s.test_transform⟩,
          calls := s.calls + 1 },
       if env s.ds_test = 0 then some (.valueError "Test dataset is empty.")
       else none) := by
  unfold setupValTestPhase
  rw [if_pos hmem, hsv]
  simp only
  rw [hst]
  simp
  split <;> simp [*]

theorem valTestPhase_val_empty (env : String → Nat) (stage : Option String)
    (s : DM) (hmem : stage ∈ valStages) (hsv : s.data_val = none)
    (he : env s.ds_val = 0) :
    setupValTestPhase env stage s =
      ({ s with
          data_val := some ⟨s.ds_val, s.calls, env s.ds_val, s.val_transform⟩,
          calls := s.calls + 1 },
       some (.valueError "Validation dataset is empty.")) := by
  unfold setupValTestPhase
  rw [if_pos hmem, hsv]
  simp only [he, if_pos rfl]
  simp

theorem valTestPhase_val_go_test_resolved (env : String → Nat)
    (stage : Option String) (s : DM) (ht : Handle)
    (hmem : stage ∈ valStages) (hsv : s.data_val = none)
    (he : env s.ds_val ≠ 0) (hst : s.data_test = some ht) :
    setupValTestPhase env stage s =
      ({ s with
          data_val := some ⟨s.ds_val, s.calls, env s.ds_val, s.val_transform⟩,
          calls := s.calls + 1 },
       none) := by
  unfold setupValTestPhase
  rw [if_pos hmem, hsv]
  simp only [he, if_neg he]
  rw [hst]
  simp

theorem valTestPhase_val_go_test_go (env : String → Nat)
    (stage : Option String) (s : DM)
    (hmem : stage ∈ valStages) (hsv : s.data_val = none)
    (he : env s.ds_val ≠ 0) (hst : s.data_test = none) :
    setupValTestPhase env stage s =
      ({ s with
          data_val := some ⟨s.ds_val, s.calls, env s.ds_val, s.val_transform⟩,
          data_test := some ⟨s.ds_test, s.calls + 1, env s.ds_test, s.test_transform⟩,
          calls := s.calls + 1 + 1 },
       if env s.ds_test = 0 then some (.valueError "Test dataset is empty.")
       else none) := by
  unfold setupValTestPhase
  rw [if_pos hmem, hsv]
  simp only [he, if_neg he]
  rw [hst]
  simp
  split <;> simp [*]

/-! ### Frame lemmas: fields each block never writes -/

theorem trainPhase_frame (env : String → Nat) (stage : Option String) (s : DM) :
    (setupTrainPhase env stage s).1.ds_train = s.ds_train ∧
    (setupTrainPhase env stage s).1.ds_val = s.ds_val ∧
    (setupTrainPhase env stage s).1.ds_test = s.ds_test ∧
    (setupTrainPhase env stage s).1.input_size = s.input_size ∧
    (setupTrainPhase env stage s).1.batch_size = s.batch_size ∧
    (setupTrainPhase env stage s).1.num_workers = s.num_workers ∧
    (setupTrainPhase env stage s).1.pin_memory = s.pin_memory ∧
    (setupTrainPhase env stage s).1.train_transform = s.train_transform ∧
    (setupTrainPhase env stage s).1.val_transform = s.val_transform ∧
    (setupTrainPhase env stage s).1.test_transform = s.test_transform ∧
    (setupTrainPhase env stage s).1.data_val = s.data_val ∧
    (setupTrainPhase env stage s).1.data_test = s.data_test ∧
    (setupTrainPhase env stage s).1.data_predict = s.data_predict := by
  by_cases hmem : stage ∈ trainStages
  · cases hs : s.data_train with
    | some h' => rw [trainPhase_resolved env stage s h' hs]; simp
    | none => rw [trainPhase_go env stage s hmem hs]; simp
  · rw [trainPhase_not_mem env stage s hmem]; simp

theorem valTestPhase_frame (env : String → Nat) (stage : Option String) (s : DM) :
    (setupValTestPhase env stage s).1.ds_train = s.ds_train ∧
    (setupValTestPhase env stage s).1.ds_val = s.ds_val ∧
    (setupValTestPhase env stage s).1.ds_test = s.ds_test ∧
    (setupValTestPhase env stage s).1.input_size = s.input_size ∧
    (setupValTestPhase env stage s).1.batch_size = s.batch_size ∧
    (setupValTestPhase env stage s).1.num_workers = s.num_workers ∧
    (setupValTestPhase env stage s).1.pin_memory = s.pin_memory ∧
    (setupValTestPhase env stage s).1.train_transform = s.train_transform ∧
    (setupValTestPhase env stage s).1.val_transform = s.val_transform ∧
    (setupValTestPhase env stage s).1.test_transform = s.test_transform ∧
    (setupValTestPhase env stage s).1.data_train = s.data_train ∧
    (setupValTestPhase env stage s).1.data_predict = s.data_predict := by
  by_cases hmem : stage ∈ valStages
  · cases hsv : s.data_val with
    | some hv =>
      cases hst : s.data_test with
      | some ht => rw [valTestPhase_both_resolved env stage s hv ht hsv hst]; simp
      | none => rw [valTestPhase_val_resolved_test_none env stage s hv hmem hsv hst]; simp
    | none =>
      by_cases he : env s.ds_val = 0
      · rw [valTestPhase_val_empty env stage s hmem hsv he]; simp
      · cases hst : s.data_test with
        | some ht => rw [valTestPhase_val_go_test_resolved env stage s ht hmem hsv he hst]; simp
        | none => rw [valTestPhase_val_go_test_go env stage s hmem hsv he hst]; simp
  · rw [valTestPhase_not_mem env stage s hmem]; simp

theorem predictPhase_frame (env : String → Nat) (stage : Option String) (s : DM) :
    (setupPredictPhase env stage s).1.ds_train = s.ds_train ∧
    (setupPredictPhase env stage s).1.ds_val = s.ds_val ∧
    (setupPredictPhase env stage s).1.ds_test = s.ds_test ∧
    (setupPredictPhase env stage s).1.input_size = s.input_size ∧
    (setupPredictPhase env stage s).1.batch_size = s.batch_size ∧
    (setupPredictPhase env stage s).1.num_workers = s.num_workers ∧
    (setupPredictPhase env stage s).1.pin_memory = s.pin_memory ∧
    (setupPredictPhase env stage s).1.train_transform = s.train_transform ∧
    (setupPredictPhase env stage s).1.val_transform = s.val_transform ∧
    (setupPredictPhase env stage s).1.test_transform = s.test_transform ∧
    (setupPredictPhase env stage s).1.data_train = s.data_train ∧
    (setupPredictPhase env stage s).1.data_val = s.data_val ∧
    (setupPredictPhase env stage s).1.data_test = s.data_test := by
  by_cases hmem : stage = some "predict"
  · subst hmem
    cases hs : s.data_test with
    | some h' => rw [predictPhase_test_resolved env (some "predict") s h' hs]; simp [hs]
    | none => rw [predictPhase_go env s hs]; simp [hs]
  · rw [predictPhase_not_mem env stage s hmem]; simp

/-! ### Monotonicity: a resolved slot is never re-resolved or replaced
by `setupValTestPhase`/`setupPredictPhase` -/

theorem valTestPhase_val_mono (env : String → Nat) (stage : Option String)
    (s : DM) (hv : Handle) (hsv : s.data_val = some hv) :
    (setupValTestPhase env stage s).1.data_val = some hv := by
  by_cases hmem : stage ∈ valStages
  · cases hst : s.data_test with
    | some ht => rw [valTestPhase_both_resolved env stage s hv ht hsv hst]; exact hsv
    | none => rw [valTestPhase_val_resolved_test_none env stage s hv hmem hsv hst]; exact hsv
  · rw [valTestPhase_not_mem env stage s hmem]; exact hsv

theorem valTestPhase_test_mono (env : String → Nat) (stage : Option String)
    (s : DM) (ht : Handle) (hst : s.data_test = some ht) :
    (setupValTestPhase env stage s).1.data_test = some ht := by
  by_cases hmem : stage ∈ valStages
  · cases hsv : s.data_val with
    | some hv => rw [valTestPhase_both_resolved env stage s hv ht hsv hst]; exact hst
    | none =>
      by_cases he : env s.ds_val = 0
      · rw [valTestPhase_val_empty env stage s hmem hsv he]; exact hst
      · rw [valTestPhase_val_go_test_resolved env stage s ht hmem hsv he hst]; exact hst
  · rw [valTestPhase_not_mem env stage s hmem]; exact hst

theorem predictPhase_predict_isSome (env : String → Nat) (stage : Option String)
    (s : DM) (hp : s.data_predict ≠ none) :
    (setupPredictPhase env stage s).1.data_predict ≠ none := by
  by_cases hmem : stage = some "predict"
  · subst hmem
    cases hs : s.data_test with
    | some h' => rw [predictPhase_test_resolved env (some "predict") s h' hs]; exact hp
    | none => rw [predictPhase_go env s hs]; simp
  · rw [predictPhase_not_mem env stage s hmem]; exact hp

/-! ### `setup`-level invariants -/

theorem setup_train_mono (env : String → Nat) (stage : Option String) (s : DM)
    (h : Handle) (hs : s.data_train = some h) :
    (setup env stage s).1.data_train = some h := by
  unfold setup
  rw [trainPhase_resolved env stage s h hs, pbind_ok]
  rcases hvt : setupValTestPhase env stage s with ⟨s2, e2⟩
  obtain ⟨-, -, -, -, -, -, -, -, -, -, hdt, -⟩ := valTestPhase_frame env stage s
  rw [hvt] at hdt
  have hdt2 : s2.data_train = some h := by
    simp only [] at hdt
    rw [hdt, hs]
  cases e2 with
  | some e => rw [pbind_err]; exact hdt2
  | none =>
    rw [pbind_ok]
    obtain ⟨-, -, -, -, -, -, -, -, -, -, hpt, -, -⟩ := predictPhase_frame env stage s2
    rw [hpt, hdt2]

theorem setup_val_mono (env : String → Nat) (stage : Option String) (s : DM)
    (h : Handle) (hs : s.data_val = some h) :
    (setup env stage s).1.data_val = some h := by
  unfold setup
  rcases htr : setupTrainPhase env stage s with ⟨s1, e1⟩
  obtain ⟨-, -, -, -, -, -, -, -, -, -, hv1, -, -⟩ := trainPhase_frame env stage s
  rw [htr] at hv1
  have hv2 : s1.data_val = some h := by
    simp only [] at hv1
    rw [hv1, hs]
  cases e1 with
  | some e => rw [pbind_err]; exact hv2
  | none =>
    rw [pbind_ok]
    rcases hvt : setupValTestPhase env stage s1 with ⟨s2, e2⟩
    have hv3 : s2.data_val = some h := by
      have := valTestPhase_val_mono env stage s1 h hv2
      rw [hvt] at this
      exact this
    cases e2 with
    | some e => rw [pbind_err]; exact hv3
    | none =>
      rw [pbind_ok]
      obtain ⟨-, -, -, -, -, -, -, -, -, -, -, hpv, -⟩ := predictPhase_frame env stage s2
      rw [hpv, hv3]

theorem setup_test_mono (env : String → Nat) (stage : Option String) (s : DM)
    (h : Handle) (hs : s.data_test = some h) :
    (setup env stage s).1.data_test = some h := by
  unfold setup
  rcases htr : setupTrainPhase env stage s with ⟨s1, e1⟩
  obtain ⟨-, -, -, -, -, -, -, -, -, -, -, ht1, -⟩ := trainPhase_frame env stage s
  rw [htr] at ht1
  have ht2 : s1.data_test = some h := by
    simp only [] at ht1
    rw [ht1, hs]
  cases e1 with
  | some e => rw [pbind_err]; exact ht2
  | none =>
    rw [pbind_ok]
    rcases hvt : setupValTestPhase env stage s1 with ⟨s2, e2⟩
    have ht3 : s2.data_test = some h := by
      have := valTestPhase_test_mono env stage s1 h ht2
      rw [hvt] at this
      exact this
    cases e2 with
    | some e => rw [pbind_err]; exact ht3
    | none =>
      rw [pbind_ok]
      obtain ⟨-, -, -, -, -, -, -, -, -, -, -, -, hpt⟩ := predictPhase_frame env stage s2
      rw [hpt, ht3]

theorem setup_predict_isSome (env : String → Nat) (stage : Option String) (s : DM)
    (hp : s.data_predict ≠ none) :
    (setup env stage s).1.data_predict ≠ none := by
  unfold setup
  rcases htr : setupTrainPhase env stage s with ⟨s1, e1⟩
  obtain ⟨-, -, -, -, -, -, -, -, -, -, -, -, hp1⟩ := trainPhase_frame env stage s
  rw [htr] at hp1
  have hp2 : s1.data_predict ≠ none := by
    simp only [] at hp1
    rw [hp1]
    exact hp
  cases e1 with
  | some e => rw [pbind_err]; exact hp2
  | none =>
    rw [pbind_ok]
    rcases hvt : setupValTestPhase env stage s1 with ⟨s2, e2⟩
    obtain ⟨-, -, -, -, -, -, -, -, -, -, -, hp3⟩ := valTestPhase_frame env stage s1
    rw [hvt] at hp3
    have hp4 : s2.data_predict ≠ none := by
      simp only [] at hp3
      rw [hp3]
      exact hp2
    cases e2 with
    | some e => rw [pbind_err]; exact hp4
    | none =>
      rw [pbind_ok]
      exact predictPhase_predict_isSome env stage s2 hp4

/-- When all three of `data_train`/`data_val`/`data_test` are already
resolved, any `setup` call whatsoever is a complete no-op. -/
theorem setup_noop (env : String → Nat) (stage : Option String) (s : DM)
    (a b c : Handle) (h1 : s.data_train = some a) (h2 : s.data_val = some b)
    (h3 : s.data_test = some c) :
    setup env stage s = (s, none) := by
  unfold setup
  rw [trainPhase_resolved env stage s a h1, pbind_ok,
    valTestPhase_both_resolved env stage s b c h2 h3, pbind_ok,
    predictPhase_test_resolved env stage s c h3]

/-! ### Batching lemmas for `chunk` -/

theorem chunk_nil {α : Type} (B : Nat) : chunk B ([] : List α) = [] := by
  rw [chunk]
  split <;> rfl

theorem chunk_cons {α : Type} (B : Nat) (hB : B ≠ 0) (x : α) (xs : List α) :
    chunk B (x :: xs) =
      (x :: xs).take B :: chunk B ((x :: xs).drop B) := by
  conv_lhs => rw [chunk]
  simp [hB]

theorem chunk_ne_nil {α : Type} (B : Nat) (hB : B ≠ 0) (x : α) (xs : List α) :
    chunk B (x :: xs) ≠ [] := by
  rw [chunk_cons B hB]
  simp

theorem chunk_flatten_fuel {α : Type} (B : Nat) (hB : B ≠ 0) :
    ∀ (n : Nat) (l : List α), l.length ≤ n → (chunk B l).flatten = l := by
  intro n
  induction n with
  | zero =>
    intro l hl
    have hnil : l = [] := List.eq_nil_of_length_eq_zero (Nat.le_zero.mp hl)
    subst hnil
    simp [chunk_nil]
  | succ n ih =>
    intro l hl
    cases l with
    | nil => simp [chunk_nil]
    | cons x xs =>
      simp only [List.length_cons] at hl
      rw [chunk_cons B hB, List.flatten_cons,
        ih ((x :: xs).drop B) (by simp only [List.length_drop, List.length_cons]; omega),
        List.take_append_drop]

/-- A `chunk`ed list concatenates back to the original list. -/
theorem chunk_flatten {α : Type} (B : Nat) (hB : B ≠ 0) (l : List α) :
    (chunk B l).flatten = l :=
  chunk_flatten_fuel B hB l.length l le_rfl

theorem chunk_length_fuel {α : Type} (B : Nat) (hB : B ≠ 0) :
    ∀ (n : Nat) (l : List α), l.length ≤ n →
      (chunk B l).length = (l.length + B - 1) / B := by
  intro n
  induction n with
  | zero =>
    intro l hl
    have hnil : l = [] := List.eq_nil_of_length_eq_zero (Nat.le_zero.mp hl)
    subst hnil
    simp [chunk_nil, Nat.div_eq_of_lt, Nat.sub_lt_self, Nat.pos_of_ne_zero hB]
  | succ n ih =>
    intro l hl
    cases l with
    | nil => simp [chunk_nil, Nat.div_eq_of_lt, Nat.sub_lt_self, Nat.pos_of_ne_zero hB]
    | cons x xs =>
      simp only [List.length_cons] at hl
      rw [chunk_cons B hB]
      rw [List.length_cons, ih ((x :: xs).drop B)
        (by simp only [List.length_drop, List.length_cons]; omega)]
      simp only [List.length_drop, List.length_cons]
      rcases Nat.lt_or_ge (xs.length + 1) B with hlt | hge
      · have e1 : xs.length + 1 - B = 0 := by omega
        rw [e1]
        have e2 : (0 + B - 1) / B = 0 := Nat.div_eq_of_lt (by omega)
        rw [e2]
        have e3 : (xs.length + 1 + B - 1) / B = 1 := by
          apply Nat.div_eq_of_lt_le
          · omega
          · omega
        rw [e3]
      · have e1 : xs.length + 1 + B - 1 = (xs.length + 1 - B + B - 1) + B := by omega
        rw [e1, Nat.add_div_right _ (Nat.pos_of_ne_zero hB)]

/-- The number of batches is `⌈length / B⌉`, written `(length + B - 1) / B`. -/
theorem chunk_length {α : Type} (B : Nat) (hB : B ≠ 0) (l : List α) :
    (chunk B l).length = (l.length + B - 1) / B :=
  chunk_length_fuel B hB l.length l le_rfl

/-- Batch sizes sum to the dataset length. -/
theorem chunk_sum_length {α : Type} (B : Nat) (hB : B ≠ 0) (l : List α) :
    ((chunk B l).map List.length).sum = l.length := by
  rw [← List.length_flatten, chunk_flatten B hB]

theorem chunk_shape_fuel {α : Type} (B : Nat) (hB : B ≠ 0) :
    ∀ (n : Nat) (l : List α), l.length ≤ n → l ≠ [] →
      ∃ pre lst, chunk B l = pre ++ [lst] ∧
        (∀ b ∈ pre, b.length = B) ∧
        lst.length = (if l.length % B = 0 then B else l.length % B) := by
  intro n
  induction n with
  | zero =>
    intro l hl hne
    exact absurd (List.eq_nil_of_length_eq_zero (Nat.le_zero.mp hl)) hne
  | succ n ih =>
    intro l hl hne
    cases l with
    | nil => exact absurd rfl hne
    | cons x xs =>
      simp only [List.length_cons] at hl
      rw [chunk_cons B hB]
      rcases Nat.lt_or_ge (xs.length + 1) B with hlt | hge
      · have hdrop : (x :: xs).drop B = [] := by
          apply List.eq_nil_of_length_eq_zero
          simp only [List.length_drop, List.length_cons]
          omega
        rw [hdrop, chunk_nil]
        refine ⟨[], (x :: xs).take B, rfl, by simp, ?_⟩
        have hmod : (xs.length + 1) % B = xs.length + 1 :=
          Nat.mod_eq_of_lt hlt
        simp only [List.length_cons, hmod]
        rw [if_neg (Nat.succ_ne_zero _)]
        simp only [List.length_take, List.length_cons]
        exact Nat.min_eq_right (by omega)
      · rcases Nat.eq_or_lt_of_le hge with heq | hgt
        · have hdrop : (x :: xs).drop B = [] := by
            apply List.eq_nil_of_length_eq_zero
            simp only [List.length_drop, List.length_cons]
            omega
          rw [hdrop, chunk_nil]
          refine ⟨[], (x :: xs).take B, rfl, by simp, ?_⟩
          have hmod : (xs.length + 1) % B = 0 := by
            rw [← heq]
            exact Nat.mod_self _
          simp only [List.length_cons, hmod]
          rw [if_pos trivial]
          simp only [List.length_take, List.length_cons]
          exact Nat.min_eq_left (by omega)
        · have hdne : (x :: xs).drop B ≠ [] := by
            intro hcon
            have hcon2 := congrArg List.length hcon
            simp only [List.length_drop, List.length_cons, List.length_nil] at hcon2
            omega
          obtain ⟨pre, lst, hchunk, hpre, hlst⟩ :=
            ih ((x :: xs).drop B)
              (by simp only [List.length_drop, List.length_cons]; omega) hdne
          refine ⟨(x :: xs).take B :: pre, lst, by rw [hchunk, List.cons_append], ?_, ?_⟩
          · intro b hb
            rcases List.mem_cons.mp hb with hb | hb
            · subst hb
              simp only [List.length_take, List.length_cons]
              exact Nat.min_eq_left (by omega)
            · exact hpre b hb
          · rw [hlst]
            have hmodeq : ((x :: xs).drop B).length % B = (xs.length + 1) % B := by
              simp only [List.length_drop, List.length_cons]
              have e1 : xs.length + 1 = (xs.length + 1 - B) + B := by omega
              conv_rhs => rw [e1]
              rw [Nat.add_mod_right]
            rw [hmodeq]
            simp only [List.length_cons]

/-- The batch list splits as a prefix of full-size batches followed by a
final batch of size `length % B` (or `B` when `B` divides the length). -/
theorem chunk_shape {α : Type} (B : Nat) (hB : B ≠ 0) (l : List α) (hne : l ≠ []) :
    ∃ pre lst, chunk B l = pre ++ [lst] ∧
      (∀ b ∈ pre, b.length = B) ∧
      lst.length = (if l.length % B = 0 then B else l.length % B) :=
  chunk_shape_fuel B hB l.length l le_rfl hne

/-! ### Reducing `setup` for each concrete stage -/

theorem setup_train_eq (env : String → Nat) (s : DM) :
    setup env (some "train") s = setupTrainPhase env (some "train") s := by
  unfold setup
  rcases htr : setupTrainPhase env (some "train") s with ⟨s1, e1⟩
  cases e1 with
  | some e => rw [pbind_err]
  | none =>
    rw [pbind_ok, valTestPhase_not_mem env _ s1 (by decide), pbind_ok,
      predictPhase_not_mem env _ s1 (by decide)]

theorem setup_validation_eq (env : String → Nat) (s : DM) :
    setup env (some "validation") s = setupValTestPhase env (some "validation") s := by
  unfold setup
  rw [trainPhase_not_mem env _ s (by decide), pbind_ok]
  rcases hvt : setupValTestPhase env (some "validation") s with ⟨s2, e2⟩
  cases e2 with
  | some e => rw [pbind_err]
  | none => rw [pbind_ok, predictPhase_not_mem env _ s2 (by decide)]

theorem setup_predict_eq (env : String → Nat) (s : DM) :
    setup env (some "predict") s = setupPredictPhase env (some "predict") s := by
  unfold setup
  rw [trainPhase_not_mem env _ s (by decide), pbind_ok,
    valTestPhase_not_mem env _ s (by decide), pbind_ok]

theorem setup_none_eq (env : String → Nat) (s : DM) :
    setup env none s =
      pbind (setupTrainPhase env none s) fun s1 =>
        setupValTestPhase env none s1 := by
  unfold setup
  rcases htr : setupTrainPhase env none s with ⟨s1, e1⟩
  cases e1 with
  | some e => rw [pbind_err, pbind_err]
  | none =>
    rw [pbind_ok, pbind_ok]
    rcases hvt : setupValTestPhase env none s1 with ⟨s2, e2⟩
    cases e2 with
    | some e => rw [pbind_err]
    | none => rw [pbind_ok, predictPhase_not_mem env _ s2 (by decide)]

theorem setup_other_eq (env : String → Nat) (stage : Option String) (s : DM)
    (h1 : stage ∉ trainStages) (h2 : stage ∉ valStages)
    (h3 : stage ≠ some "predict") :
    setup env stage s = (s, none) := by
  unfold setup
  rw [trainPhase_not_mem env stage s h1, pbind_ok,
    valTestPhase_not_mem env stage s h2, pbind_ok,
    predictPhase_not_mem env stage s h3]

/-! ### What a non-raising block guarantees -/

theorem trainPhase_resolves (env : String → Nat) (stage : Option String) (s : DM)
    (hmem : stage ∈ trainStages) :
    (setupTrainPhase env stage s).1.data_train ≠ none := by
  cases hst : s.data_train with
  | some h => rw [trainPhase_resolved env stage s h hst]; simp [hst]
  | none => rw [trainPhase_go env stage s hmem hst]; simp

theorem valTestPhase_success (env : String → Nat) (stage : Option String)
    (s1 : DM) (hmem : stage ∈ valStages)
    (hsucc : (setupValTestPhase env stage s1).2 = none) :
    (setupValTestPhase env stage s1).1.data_val ≠ none ∧
    (setupValTestPhase env stage s1).1.data_test ≠ none := by
  cases hsv : s1.data_val with
  | some hv =>
    cases hst : s1.data_test with
    | some ht =>
      rw [valTestPhase_both_resolved env stage s1 hv ht hsv hst]
      simp [hsv, hst]
    | none =>
      rw [valTestPhase_val_resolved_test_none env stage s1 hv hmem hsv hst]
      simp [hsv]
  | none =>
    by_cases he : env s1.ds_val = 0
    · rw [valTestPhase_val_empty env stage s1 hmem hsv he] at hsucc
      simp at hsucc
    · cases hst : s1.data_test with
      | some ht =>
        rw [valTestPhase_val_go_test_resolved env stage s1 ht hmem hsv he hst]
        simp [hst]
      | none =>
        rw [valTestPhase_val_go_test_go env stage s1 hmem hsv he hst]
        simp

/-! ## Claim theorems -/

/-- C2 (stage scoping): `setup('train')` resolves only the train
partition (val/test/predict slots unchanged; the train slot is filled
from `ds_train` when unresolved, and the call is a complete no-op when it
is already resolved); `setup('validation')` leaves train and predict
unchanged and, when it returns without error, has both the validation and
the test partition resolved; `setup('predict')` is a complete no-op when
test is already resolved (the adapter is not invoked again for that
source) and otherwise resolves the predict slot from the test source
reference `ds_test` with the test transform, leaving train, val and test
unchanged; `setup(None)` leaves predict unchanged and, when it returns
without error, has train, validation and test all resolved. -/
theorem claim_C2 (env : String → Nat) (s : DM) :
    ((setup env (some "train") s).1.data_val = s.data_val ∧
     (setup env (some "train") s).1.data_test = s.data_test ∧
     (setup env (some "train") s).1.data_predict = s.data_predict ∧
     (s.data_train = none →
       (setup env (some "train") s).1.data_train =
         some ⟨s.ds_train, s.calls, env s.ds_train, s.train_transform⟩) ∧
     (∀ h, s.data_train = some h → setup env (some "train") s = (s, none))) ∧
    ((setup env (some "validation") s).1.data_train = s.data_train ∧
     (setup env (some "validation") s).1.data_predict = s.data_predict ∧
     ((setup env (some "validation") s).2 = none →
       (setup env (some "validation") s).1.data_val ≠ none ∧
       (setup env (some "validation") s).1.data_test ≠ none)) ∧
    ((∀ h, s.data_test = some h → setup env (some "predict") s = (s, none)) ∧
     (s.data_test = none →
       (setup env (some "predict") s).1.data_predict =
         some ⟨s.ds_test, s.calls, env s.ds_test, s.test_transform⟩ ∧
       (setup env (some "predict") s).1.data_train = s.data_train ∧
       (setup env (some "predict") s).1.data_val = s.data_val ∧
       (setup env (some "predict") s).1.data_test = none)) ∧
    ((setup env none s).1.data_predict = s.data_predict ∧
     ((setup env none s).2 = none →
       (setup env none s).1.data_train ≠ none ∧
       (setup env none s).1.data_val ≠ none ∧
       (setup env none s).1.data_test ≠ none)) := by
  refine ⟨⟨?_, ?_, ?_, ?_, ?_⟩, ⟨?_, ?_, ?_⟩, ⟨?_, ?_⟩, ⟨?_, ?_⟩⟩
  · rw [setup_train_eq]
    exact (trainPhase_frame env _ s).2.2.2.2.2.2.2.2.2.2.1
  · rw [setup_train_eq]
    exact (trainPhase_frame env _ s).2.2.2.2.2.2.2.2.2.2.2.1
  · rw [setup_train_eq]
    exact (trainPhase_frame env _ s).2.2.2.2.2.2.2.2.2.2.2.2
  · intro hs
    rw [setup_train_eq, trainPhase_go env _ s (by decide) hs]
  · intro h hs
    rw [setup_train_eq]
    exact trainPhase_resolved env _ s h hs
  · rw [setup_validation_eq]
    exact (valTestPhase_frame env _ s).2.2.2.2.2.2.2.2.2.2.1
  · rw [setup_validation_eq]
    exact (valTestPhase_frame env _ s).2.2.2.2.2.2.2.2.2.2.2
  · intro hsucc
    rw [setup_validation_eq] at hsucc ⊢
    exact valTestPhase_success env _ s (by decide) hsucc
  · intro h hs
    rw [setup_predict_eq]
    exact predictPhase_test_resolved env _ s h hs
  · intro hs
    rw [setup_predict_eq, predictPhase_go env s hs]
    exact ⟨rfl, rfl, rfl, hs⟩
  · rw [setup_none_eq]
    rcases htr : setupTrainPhase env none s with ⟨s1, e1⟩
    have hp1 : s1.data_predict = s.data_predict := by
      have h0 := (trainPhase_frame env none s).2.2.2.2.2.2.2.2.2.2.2.2
      rw [htr] at h0
      exact h0
    cases e1 with
    | some e => rw [pbind_err]; exact hp1
    | none =>
      rw [pbind_ok]
      have h0 := (valTestPhase_frame env none s1).2.2.2.2.2.2.2.2.2.2.2
      rw [h0, hp1]
  · intro hsucc
    rw [setup_none_eq] at hsucc ⊢
    rcases htr : setupTrainPhase env none s with ⟨s1, e1⟩
    rw [htr] at hsucc
    cases e1 with
    | some e =>
      rw [pbind_err] at hsucc
      simp at hsucc
    | none =>
      rw [pbind_ok] at hsucc ⊢
      have htrain : s1.data_train ≠ none := by
        have h0 := trainPhase_resolves env none s (by decide)
        rw [htr] at h0
        exact h0
      have hvt := valTestPhase_success env none s1 (by decide) hsucc
      have hdt := (valTestPhase_frame env none s1).2.2.2.2.2.2.2.2.2.2.1
      refine ⟨?_, hvt.1, hvt.2⟩
      rw [hdt]
      exact htrain

/-- C2 witness: on a fresh module with a five-sample adapter,
`setup('train')` fills the train slot with the first adapter handle,
`setup('predict')` fills the predict slot from the test source, and
`setup(None)` succeeds leaving the validation slot resolved. -/
theorem claim_C2_witness :
    (setup envFive (some "train") dmFresh).1.data_train =
      some ⟨"tr", 0, 5, dmFresh.train_transform⟩ ∧
    (setup envFive (some "predict") dmFresh).1.data_predict =
      some ⟨"te", 0, 5, dmFresh.test_transform⟩ ∧
    (setup envFive none dmFresh).1.data_val ≠ none := by
  refine ⟨?_, ?_, ?_⟩
  · exact (claim_C2 envFive dmFresh).1.2.2.2.1 rfl
  · exact ((claim_C2 envFive dmFresh).2.2.1.2 rfl).1
  · exact ((claim_C2 envFive dmFresh).2.2.2.2 (by decide)).2.1

/-- C1 counterexample: the predict role violates idempotence.  On a fresh
module, `setup('predict')` resolves the predict partition (adapter call 0);
because the guard in the predict block reads `data_test` — which is still
`None` — a second `setup('predict')` invokes the adapter again (total
adapter invocations: 2) and replaces the stored predict handle with one
from the fresh invocation (callId 1 instead of 0). -/
theorem claim_C1_counterexample :
    (setup envFive (some "predict") dmFresh).1.data_predict =
      some ⟨"te", 0, 5, dmFresh.test_transform⟩ ∧
    (setup envFive (some "predict")
        (setup envFive (some "predict") dmFresh).1).1.data_predict =
      some ⟨"te", 1, 5, dmFresh.test_transform⟩ ∧
    (setup envFive (some "predict")
        (setup envFive (some "predict") dmFresh).1).1.data_predict ≠
      (setup envFive (some "predict") dmFresh).1.data_predict ∧
    (setup envFive (some "predict")
        (setup envFive (some "predict") dmFresh).1).1.calls = 2 := by
  decide

/-- C1 amended: `setup` is idempotent for the train, validation and test
roles — once one of those slots holds a handle, no later `setup` call of
any stage invokes the adapter again for that role or replaces the stored
handle — and for the predict role only while the test slot is resolved
(the predict block guards on `data_test`, so with test unresolved a
repeated `setup('predict')` re-invokes the adapter and replaces the
predict handle, as the counterexample shows).  When train, validation and
test are all resolved, any `setup` call whatsoever is a complete no-op
returning the unchanged state. -/
theorem claim_C1_amended (env : String → Nat) (stage : Option String) (s : DM) :
    (∀ h, s.data_train = some h → (setup env stage s).1.data_train = some h) ∧
    (∀ h, s.data_val = some h → (setup env stage s).1.data_val = some h) ∧
    (∀ h, s.data_test = some h → (setup env stage s).1.data_test = some h) ∧
    (∀ ht hp, s.data_test = some ht → s.data_predict = some hp →
      (setup env stage s).1.data_predict = some hp) ∧
    (∀ a b c, s.data_train = some a → s.data_val = some b →
      s.data_test = some c → setup env stage s = (s, none)) := by
  refine ⟨?_, ?_, ?_, ?_, ?_⟩
  · intro h hs
    exact setup_train_mono env stage s h hs
  · intro h hs
    exact setup_val_mono env stage s h hs
  · intro h hs
    exact setup_test_mono env stage s h hs
  · intro ht hp hst hsp
    unfold setup
    rcases htr : setupTrainPhase env stage s with ⟨s1, e1⟩
    have hf1 := trainPhase_frame env stage s
    rw [htr] at hf1
    have h1t : s1.data_test = some ht := by
      rw [hf1.2.2.2.2.2.2.2.2.2.2.2.1, hst]
    have h1p : s1.data_predict = some hp := by
      rw [hf1.2.2.2.2.2.2.2.2.2.2.2.2, hsp]
    cases e1 with
    | some e => rw [pbind_err]; exact h1p
    | none =>
      rw [pbind_ok]
      rcases hvt : setupValTestPhase env stage s1 with ⟨s2, e2⟩
      have hf2 := valTestPhase_frame env stage s1
      rw [hvt] at hf2
      have h2t : s2.data_test = some ht := by
        have := valTestPhase_test_mono env stage s1 ht h1t
        rw [hvt] at this
        exact this
      have h2p : s2.data_predict = some hp := by
        rw [hf2.2.2.2.2.2.2.2.2.2.2.2, h1p]
      cases e2 with
      | some e => rw [pbind_err]; exact h2p
      | none =>
        rw [pbind_ok, predictPhase_test_resolved env stage s2 ht h2t]
        exact h2p
  · intro a b c h1 h2 h3
    exact setup_noop env stage s a b c h1 h2 h3

/-- C1 amended witness: after `setup(None)` resolved all three guarded
slots on a fresh module, a later `setup('fit')` is a complete no-op. -/
theorem claim_C1_amended_witness :
    setup envFive (some "fit") (setup envFive none dmFresh).1 =
      ((setup envFive none dmFresh).1, none) :=
  (claim_C1_amended envFive (some "fit") (setup envFive none dmFresh).1).2.2.2.2
    ⟨"tr", 0, 5, dmFresh.train_transform⟩
    ⟨"va", 1, 5, dmFresh.val_transform⟩
    ⟨"te", 2, 5, dmFresh.test_transform⟩
    (by decide) (by decide) (by decide)

/-- C9 counterexample: `'test'` is outside the enumerated stage set, yet
`setup('test')` raises nothing and silently resolves nothing: it returns
normally with the state unchanged, instead of a `PreconditionError`. -/
theorem claim_C9_counterexample :
    setup envFive (some "test") dmFresh = (dmFresh, none) := by
  decide

/-- C9 amended: calling `setup` with a stage identifier outside
`{train, fit, validation, predict, None}` raises nothing: none of the
three blocks fires, so the call silently resolves nothing and returns
normally with the state unchanged. -/
theorem claim_C9_amended (env : String → Nat) (stage : Option String) (s : DM)
    (h : stage ∉ ([some "train", some "fit", some "validation",
      some "predict", none] : List (Option String))) :
    setup env stage s = (s, none) := by
  simp only [List.mem_cons, List.not_mem_nil, or_false, not_or] at h
  obtain ⟨h1, h2, h3, h4, h5⟩ := h
  apply setup_other_eq env stage s
  · simp [trainStages, h1, h2, h5]
  · simp [valStages, h2, h3, h5]
  · exact h4

/-- C9 amended witness: `setup('bogus')` on a fresh module is a silent
no-op. -/
theorem claim_C9_amended_witness :
    setup envFive (some "bogus") dmFresh = (dmFresh, none) :=
  claim_C9_amended envFive (some "bogus") dmFresh (by decide)

/-- C8 counterexample: on a fresh module no partition is resolved, yet
`val_dataloader` (and `train_dataloader`) return ordinary loader values
over an absent dataset — the getters have no failure path at all, so no
`PreconditionError` (nor any other error) is raised at request time. -/
theorem claim_C8_counterexample :
    val_dataloader dmFresh =
      { dataset := none, batch_size := 64, num_workers := 0,
        pin_memory := false, shuffle := false } ∧
    train_dataloader dmFresh =
      { dataset := none, batch_size := 64, num_workers := 0,
        pin_memory := false, shuffle := true } := by
  decide

/-- C8 amended: requesting a loader for an unresolved partition does not
fail fast — the getters perform no precondition check and hand the empty
slot straight to the loader constructor, producing a loader with no
dataset; the failure is deferred to iteration time (iterating such a
loader has no result). -/
theorem claim_C8_amended (s : DM) (perm : Nat → List Nat) :
    (s.data_train = none →
      (train_dataloader s).dataset = none ∧
      loaderRun (train_dataloader s) perm = none) ∧
    (s.data_val = none →
      (val_dataloader s).dataset = none ∧
      loaderRun (val_dataloader s) perm = none) ∧
    (s.data_test = none →
      (test_dataloader s).dataset = none ∧
      loaderRun (test_dataloader s) perm = none) := by
  refine ⟨fun hs => ?_, fun hs => ?_, fun hs => ?_⟩ <;>
    exact ⟨hs, by simp [train_dataloader, val_dataloader, test_dataloader,
      loaderRun, hs]⟩

/-- C8 amended witness: iterating the validation loader of a fresh module
returns nothing. -/
theorem claim_C8_amended_witness :
    loaderRun (val_dataloader dmFresh) (fun n => List.range n) = none :=
  ((claim_C8_amended dmFresh (fun n => List.range n)).2.1 rfl).2

/-- C7 (role-parameterized pipelines): independent of every constructor
argument — in particular of `input_size` — the train pipeline is exactly
`ToPILImage; Grayscale(1); Resize(256,256); RandomRotation(20); ToTensor;
Normalize(mean=[0],std=[1])` (the PIL conversion and the single-channel
conversion jointly realize the grayscale step, and `ToTensor` plus the
identity `Normalize` realize the tensor-conversion step); the validation
and test pipelines are the identical sequence with the rotation step at
position 3 omitted; and `setup('predict')` resolves the predict partition
with the test pipeline.  Pipelines are fixed at construction from the
role alone (they are literals, inspecting no data), and the 256×256
resize target does not mention `input_size`. -/
theorem claim_C7 (train_dir val_dir test_dir : String) (input_size : Nat × Nat)
    (batch_size num_workers : Nat) (pin_memory : Bool) (env : String → Nat) :
    (init train_dir val_dir test_dir input_size batch_size num_workers
        pin_memory).train_transform =
      [.toPILImage, .grayscale 1, .resize 256 256, .randomRotation 20,
       .toTensor, .normalize [0] [1]] ∧
    (init train_dir val_dir test_dir input_size batch_size num_workers
        pin_memory).val_transform =
      [.toPILImage, .grayscale 1, .resize 256 256, .toTensor,
       .normalize [0] [1]] ∧
    (init train_dir val_dir test_dir input_size batch_size num_workers
        pin_memory).test_transform =
      (init train_dir val_dir test_dir input_size batch_size num_workers
        pin_memory).val_transform ∧
    (init train_dir val_dir test_dir input_size batch_size num_workers
        pin_memory).train_transform =
      (init train_dir val_dir test_dir input_size batch_size num_workers
          pin_memory).val_transform.take 3 ++
        [.randomRotation 20] ++
        (init train_dir val_dir test_dir input_size batch_size num_workers
          pin_memory).val_transform.drop 3 ∧
    (setup env (some "predict")
        (init train_dir val_dir test_dir input_size batch_size num_workers
          pin_memory)).1.data_predict =
      some ⟨test_dir, 0, env test_dir,
        (init train_dir val_dir test_dir input_size batch_size num_workers
          pin_memory).test_transform⟩ := by
  refine ⟨rfl, rfl, rfl, rfl, ?_⟩
  rw [setup_predict_eq, predictPhase_go env _ rfl]
  simp [init]

/-! ### Which block raised which error -/

theorem trainPhase_err (env : String → Nat) (stage : Option String) (s : DM)
    (e : DMError) (h : (setupTrainPhase env stage s).2 = some e) :
    e = .valueError "Train dataset is empty." := by
  by_cases hmem : stage ∈ trainStages
  · cases hdt : s.data_train with
    | some a =>
      rw [trainPhase_resolved env stage s a hdt] at h
      simp at h
    | none =>
      rw [trainPhase_go env stage s hmem hdt] at h
      by_cases hz : env s.ds_train = 0
      · rw [if_pos hz] at h
        exact (Option.some.inj h).symm
      · rw [if_neg hz] at h
        simp at h
  · rw [trainPhase_not_mem env stage s hmem] at h
    simp at h

theorem predictPhase_err (env : String → Nat) (stage : Option String) (s : DM)
    (e : DMError) (h : (setupPredictPhase env stage s).2 = some e) :
    e = .valueError "Predict dataset is empty." := by
  by_cases hmem : stage = some "predict"
  · subst hmem
    cases hdt : s.data_test with
    | some a =>
      rw [predictPhase_test_resolved env (some "predict") s a hdt] at h
      simp at h
    | none =>
      rw [predictPhase_go env s hdt] at h
      by_cases hz : env s.ds_test = 0
      · rw [if_pos hz] at h
        exact (Option.some.inj h).symm
      · rw [if_neg hz] at h
        simp at h
  · rw [predictPhase_not_mem env stage s hmem] at h
    simp at h

theorem valTestPhase_err (env : String → Nat) (stage : Option String) (s : DM)
    (e : DMError) (h : (setupValTestPhase env stage s).2 = some e) :
    e = .valueError "Validation dataset is empty." ∨
    e = .valueError "Test dataset is empty." := by
  by_cases hmem : stage ∈ valStages
  · cases hsv : s.data_val with
    | some hv =>
      cases hst : s.data_test with
      | some ht =>
        rw [valTestPhase_both_resolved env stage s hv ht hsv hst] at h
        simp at h
      | none =>
        rw [valTestPhase_val_resolved_test_none env stage s hv hmem hsv hst] at h
        by_cases hz : env s.ds_test = 0
        · rw [if_pos hz] at h
          exact Or.inr (Option.some.inj h).symm
        · rw [if_neg hz] at h
          simp at h
    | none =>
      by_cases he : env s.ds_val = 0
      · rw [valTestPhase_val_empty env stage s hmem hsv he] at h
        exact Or.inl (Option.some.inj h).symm
      · cases hst : s.data_test with
        | some ht =>
          rw [valTestPhase_val_go_test_resolved env stage s ht hmem hsv he hst] at h
          simp at h
        | none =>
          rw [valTestPhase_val_go_test_go env stage s hmem hsv he hst] at h
          by_cases hz : env s.ds_test = 0
          · rw [if_pos hz] at h
            exact Or.inr (Option.some.inj h).symm
          · rw [if_neg hz] at h
            simp at h
  · rw [valTestPhase_not_mem env stage s hmem] at h
    simp at h

/-- A raise on the validation dataset leaves `data_test` untouched (the
test branch of the block is never reached) and the freshly-stored empty
validation handle in place. -/
theorem valTestPhase_valErr (env : String → Nat) (stage : Option String) (s : DM)
    (h : (setupValTestPhase env stage s).2 =
      some (.valueError "Validation dataset is empty.")) :
    (setupValTestPhase env stage s).1.data_test = s.data_test ∧
    (setupValTestPhase env stage s).1.data_val ≠ none := by
  by_cases hmem : stage ∈ valStages
  · cases hsv : s.data_val with
    | some hv =>
      cases hst : s.data_test with
      | some ht =>
        rw [valTestPhase_both_resolved env stage s hv ht hsv hst] at h
        simp at h
      | none =>
        rw [valTestPhase_val_resolved_test_none env stage s hv hmem hsv hst] at h
        by_cases hz : env s.ds_test = 0
        · rw [if_pos hz] at h
          exact absurd (Option.some.inj h) (by decide)
        · rw [if_neg hz] at h
          simp at h
    | none =>
      by_cases he : env s.ds_val = 0
      · rw [valTestPhase_val_empty env stage s hmem hsv he]
        simp
      · cases hst : s.data_test with
        | some ht =>
          rw [valTestPhase_val_go_test_resolved env stage s ht hmem hsv he hst] at h
          simp at h
        | none =>
          rw [valTestPhase_val_go_test_go env stage s hmem hsv he hst] at h
          by_cases hz : env s.ds_test = 0
          · rw [if_pos hz] at h
            exact absurd (Option.some.inj h) (by decide)
          · rw [if_neg hz] at h
            simp at h
  · rw [valTestPhase_not_mem env stage s hmem] at h
    simp at h

/-- C4 (failure atomicity across calls): partitions resolved by prior
`setup` calls remain resolved — the train/validation/test slots keep their
exact handles through any later call, and a resolved predict slot stays
resolved — and a failing call fails as a whole: when the call raises on
the train dataset, the validation, test and predict slots are exactly as
before the call (the later blocks never ran); when it raises on the
validation dataset, the test and predict slots are exactly as before,
while the train slot — resolved earlier *within the same call* whenever
the stage required it — is not rolled back. -/
theorem claim_C4 (env : String → Nat) (stage : Option String) (s : DM) :
    ((∀ h, s.data_train = some h → (setup env stage s).1.data_train = some h) ∧
     (∀ h, s.data_val = some h → (setup env stage s).1.data_val = some h) ∧
     (∀ h, s.data_test = some h → (setup env stage s).1.data_test = some h) ∧
     (s.data_predict ≠ none → (setup env stage s).1.data_predict ≠ none)) ∧
    ((setup env stage s).2 = some (.valueError "Train dataset is empty.") →
      (setup env stage s).1.data_val = s.data_val ∧
      (setup env stage s).1.data_test = s.data_test ∧
      (setup env stage s).1.data_predict = s.data_predict) ∧
    ((setup env stage s).2 = some (.valueError "Validation dataset is empty.") →
      (setup env stage s).1.data_test = s.data_test ∧
      (setup env stage s).1.data_predict = s.data_predict ∧
      (stage ∈ trainStages → (setup env stage s).1.data_train ≠ none)) := by
  refine ⟨⟨fun h hs => setup_train_mono env stage s h hs,
    fun h hs => setup_val_mono env stage s h hs,
    fun h hs => setup_test_mono env stage s h hs,
    fun hp => setup_predict_isSome env stage s hp⟩, ?_, ?_⟩
  · unfold setup
    rcases htr : setupTrainPhase env stage s with ⟨s1, e1⟩
    have hf1 := trainPhase_frame env stage s
    rw [htr] at hf1
    cases e1 with
    | some e =>
      intro h2
      rw [pbind_err]
      exact ⟨hf1.2.2.2.2.2.2.2.2.2.2.1, hf1.2.2.2.2.2.2.2.2.2.2.2.1,
        hf1.2.2.2.2.2.2.2.2.2.2.2.2⟩
    | none =>
      intro h2
      rw [pbind_ok] at h2 ⊢
      rcases hvt : setupValTestPhase env stage s1 with ⟨s2, e2⟩
      rw [hvt] at h2
      cases e2 with
      | some e =>
        rw [pbind_err] at h2
        have he : e = .valueError "Train dataset is empty." :=
          Option.some.inj h2
        have := valTestPhase_err env stage s1 e (by rw [hvt])
        rcases this with h3 | h3 <;> rw [he] at h3 <;> exact absurd h3 (by decide)
      | none =>
        rw [pbind_ok] at h2
        have := predictPhase_err env stage s2 _ h2
        exact absurd this (by decide)
  · unfold setup
    rcases htr : setupTrainPhase env stage s with ⟨s1, e1⟩
    have hf1 := trainPhase_frame env stage s
    rw [htr] at hf1
    cases e1 with
    | some e =>
      intro h2
      rw [pbind_err] at h2
      have he : e = .valueError "Validation dataset is empty." :=
        Option.some.inj h2
      have htr2 : e = .valueError "Train dataset is empty." :=
        trainPhase_err env stage s e (by rw [htr])
      rw [he] at htr2
      exact absurd htr2 (by decide)
    | none =>
      intro h2
      rw [pbind_ok] at h2 ⊢
      rcases hvt : setupValTestPhase env stage s1 with ⟨s2, e2⟩
      rw [hvt] at h2
      cases e2 with
      | some e =>
        rw [pbind_err] at h2 ⊢
        have he : e = .valueError "Validation dataset is empty." :=
          Option.some.inj h2
        have hval := valTestPhase_valErr env stage s1 (by rw [hvt, ← he])
        rw [hvt] at hval
        have hf2 := valTestPhase_frame env stage s1
        rw [hvt] at hf2
        refine ⟨?_, ?_, ?_⟩
        · rw [hval.1, hf1.2.2.2.2.2.2.2.2.2.2.2.1]
        · rw [hf2.2.2.2.2.2.2.2.2.2.2.2, hf1.2.2.2.2.2.2.2.2.2.2.2.2]
        · intro hmem
          have h5 := trainPhase_resolves env stage s hmem
          rw [htr] at h5
          have h6 := hf2.2.2.2.2.2.2.2.2.2.2.1
          rw [h6]
          exact h5
      | none =>
        rw [pbind_ok] at h2
        have := predictPhase_err env stage s2 _ h2
        exact absurd this (by decide)

/-- C4 witness: with an adapter that resolves the validation source to
zero samples, `setup(None)` on a fresh module raises on the validation
dataset; the test and predict slots are untouched and the train slot —
resolved earlier in the same call — holds its handle. -/
theorem claim_C4_witness :
    (setup envValZero none dmFresh).1.data_test = none ∧
    (setup envValZero none dmFresh).1.data_predict = none ∧
    (setup envValZero none dmFresh).1.data_train ≠ none := by
  have h := (claim_C4 envValZero none dmFresh).2.2 (by decide)
  exact ⟨h.1, h.2.1, h.2.2 (by decide)⟩

/-- C3 counterexample: with an adapter resolving the validation source to
zero samples, `setup('validation')` on a fresh module raises the
emptiness error for the validation role — but a validation loader can
still subsequently be built: the empty handle was stored in the slot
before the length check and `val_dataloader` performs no check, so it
returns an ordinary loader over the empty partition, which even iterates
(to zero batches).  This refutes "after that failure no loader can
subsequently be built for that role". -/
theorem claim_C3_counterexample :
    (setup envValZero (some "validation") dmFresh).2 =
      some (.valueError "Validation dataset is empty.") ∧
    val_dataloader (setup envValZero (some "validation") dmFresh).1 =
      { dataset := some ⟨"va", 0, 0, dmFresh.val_transform⟩, batch_size := 64,
        num_workers := 0, pin_memory := false, shuffle := false } ∧
    loaderRun (val_dataloader (setup envValZero (some "validation") dmFresh).1)
      (fun n => List.range n) = some [] := by
  refine ⟨by decide, by decide, ?_⟩
  have hval : (setup envValZero (some "validation") dmFresh).1.data_val =
      some ⟨"va", 0, 0, dmFresh.val_transform⟩ := by decide
  simp [loaderRun, val_dataloader, hval, chunk_nil]

/-- C3 amended: the emptiness gate holds — for any role required by the
requested stage, an adapter handle of length 0 makes `setup` raise,
synchronously and without retry, a `ValueError` whose message names that
role ("Train/Validation/Test/Predict dataset is empty.").  However, the
empty handle is assigned to the partition slot *before* the length check,
and the loader getters perform no check, so after the failure a loader
for that role can still be built over the stored empty handle (iterating
it yields zero batches). -/
theorem claim_C3_amended (env : String → Nat) (s : DM) (perm : Nat → List Nat) :
    (s.data_train = none → env s.ds_train = 0 →
      (setup env (some "train") s).2 =
        some (.valueError "Train dataset is empty.") ∧
      (setup env (some "train") s).1.data_train =
        some ⟨s.ds_train, s.calls, 0, s.train_transform⟩ ∧
      (train_dataloader (setup env (some "train") s).1).dataset =
        some ⟨s.ds_train, s.calls, 0, s.train_transform⟩) ∧
    (s.data_val = none → env s.ds_val = 0 →
      (setup env (some "validation") s).2 =
        some (.valueError "Validation dataset is empty.") ∧
      (setup env (some "validation") s).1.data_val =
        some ⟨s.ds_val, s.calls, 0, s.val_transform⟩ ∧
      (val_dataloader (setup env (some "validation") s).1).dataset =
        some ⟨s.ds_val, s.calls, 0, s.val_transform⟩ ∧
      loaderRun (val_dataloader (setup env (some "validation") s).1) perm =
        some []) ∧
    (∀ hv, s.data_val = some hv → s.data_test = none → env s.ds_test = 0 →
      (setup env (some "validation") s).2 =
        some (.valueError "Test dataset is empty.") ∧
      (setup env (some "validation") s).1.data_test =
        some ⟨s.ds_test, s.calls, 0, s.test_transform⟩ ∧
      (test_dataloader (setup env (some "validation") s).1).dataset =
        some ⟨s.ds_test, s.calls, 0, s.test_transform⟩ ∧
      loaderRun (test_dataloader (setup env (some "validation") s).1) perm =
        some []) ∧
    (s.data_test = none → env s.ds_test = 0 →
      (setup env (some "predict") s).2 =
        some (.valueError "Predict dataset is empty.") ∧
      (setup env (some "predict") s).1.data_predict =
        some ⟨s.ds_test, s.calls, 0, s.test_transform⟩) := by
  refine ⟨fun hs he => ?_, fun hs he => ?_, fun hv hsv hst he => ?_,
    fun hs he => ?_⟩
  · rw [setup_train_eq, trainPhase_go env _ s (by decide) hs, if_pos he, he]
    exact ⟨rfl, rfl, rfl⟩
  · rw [setup_validation_eq, valTestPhase_val_empty env _ s (by decide) hs he, he]
    refine ⟨rfl, rfl, rfl, ?_⟩
    simp [loaderRun, val_dataloader, chunk_nil]
  · rw [setup_validation_eq,
      valTestPhase_val_resolved_test_none env _ s hv (by decide) hsv hst,
      if_pos he, he]
    refine ⟨rfl, rfl, rfl, ?_⟩
    simp [loaderRun, test_dataloader, chunk_nil]
  · rw [setup_predict_eq, predictPhase_go env s hs, if_pos he, he]
    exact ⟨rfl, rfl⟩

/-- C3 amended witness: the validation bullet at the concrete fixture. -/
theorem claim_C3_amended_witness :
    (setup envValZero (some "validation") dmFresh).2 =
      some (.valueError "Validation dataset is empty.") ∧
    (setup envValZero (some "validation") dmFresh).1.data_val =
      some ⟨"va", 0, 0, dmFresh.val_transform⟩ ∧
    (val_dataloader (setup envValZero (some "validation") dmFresh).1).dataset =
      some ⟨"va", 0, 0, dmFresh.val_transform⟩ ∧
    loaderRun (val_dataloader (setup envValZero (some "validation") dmFresh).1)
      (fun n => List.range n) = some [] :=
  (claim_C3_amended envValZero dmFresh (fun n => List.range n)).2.1
    (by decide) (by decide)

/-- C5 (shuffle policy): the train loader is built with `shuffle=True`
and the validation/test loaders with `shuffle=False`; consequently — in
the iteration model — a full run of the train loader follows the epoch
permutation drawn from the external RNG (a new permutation per restart),
while a full run of the validation/test loader is independent of the RNG,
identical across restarts, and concatenates to the partition's insertion
order `0, 1, ..., len-1`. -/
theorem claim_C5 (s : DM) (perm₁ perm₂ : Nat → List Nat) :
    (train_dataloader s).shuffle = true ∧
    (val_dataloader s).shuffle = false ∧
    (test_dataloader s).shuffle = false ∧
    (∀ h, s.data_train = some h →
      loaderRun (train_dataloader s) perm₁ =
        some (chunk s.batch_size (perm₁ h.len))) ∧
    loaderRun (val_dataloader s) perm₁ = loaderRun (val_dataloader s) perm₂ ∧
    loaderRun (test_dataloader s) perm₁ = loaderRun (test_dataloader s) perm₂ ∧
    (∀ h, s.data_val = some h → s.batch_size ≠ 0 →
      ∃ bs, loaderRun (val_dataloader s) perm₁ = some bs ∧
        bs.flatten = List.range h.len) ∧
    (∀ h, s.data_test = some h → s.batch_size ≠ 0 →
      ∃ bs, loaderRun (test_dataloader s) perm₁ = some bs ∧
        bs.flatten = List.range h.len) := by
  refine ⟨rfl, rfl, rfl, ?_, ?_, ?_, ?_, ?_⟩
  · intro h hs
    simp [loaderRun, train_dataloader, hs]
  · cases hs : s.data_val with
    | none => simp [loaderRun, val_dataloader, hs]
    | some h => simp [loaderRun, val_dataloader, hs]
  · cases hs : s.data_test with
    | none => simp [loaderRun, test_dataloader, hs]
    | some h => simp [loaderRun, test_dataloader, hs]
  · intro h hs hB
    refine ⟨chunk s.batch_size (List.range h.len), ?_, chunk_flatten _ hB _⟩
    simp [loaderRun, val_dataloader, hs]
  · intro h hs hB
    refine ⟨chunk s.batch_size (List.range h.len), ?_, chunk_flatten _ hB _⟩
    simp [loaderRun, test_dataloader, hs]

/-- C5 witness: after `setup(None)` on the fresh fixture, one run of the
validation loader concatenates to the insertion order `0..4`. -/
theorem claim_C5_witness :
    ∃ bs, loaderRun (val_dataloader (setup envFive none dmFresh).1)
        (fun n => List.range n) = some bs ∧
      bs.flatten = List.range 5 :=
  (claim_C5 (setup envFive none dmFresh).1 (fun n => List.range n)
      (fun _ => [])).2.2.2.2.2.2.1
    ⟨"va", 1, 5, dmFresh.val_transform⟩ (by decide) (by decide)

/-- Shape of one full run of any loader over a resolved handle: with
`N = h.len` and `B = l.batch_size`, the run yields `(N + B - 1) / B`
(that is, `⌈N/B⌉`) batches whose sizes sum to `N`; every batch except the
last has size `B`, and the last batch has size `B` when `B` divides `N`
and `N - B*(N/B)` otherwise. -/
theorem loaderRun_shape (l : Loader) (h : Handle) (perm : Nat → List Nat)
    (hd : l.dataset = some h) (hB : l.batch_size ≠ 0) (hlen : h.len ≠ 0)
    (hperm : l.shuffle = true → (perm h.len).length = h.len) :
    ∃ bs pre lst, loaderRun l perm = some bs ∧ bs = pre ++ [lst] ∧
      bs.length = (h.len + l.batch_size - 1) / l.batch_size ∧
      (bs.map List.length).sum = h.len ∧
      (∀ b ∈ pre, b.length = l.batch_size) ∧
      lst.length = (if h.len % l.batch_size = 0 then l.batch_size
        else h.len - l.batch_size * (h.len / l.batch_size)) := by
  have hxs : (if l.shuffle then perm h.len else List.range h.len).length =
      h.len := by
    cases hsh : l.shuffle with
    | true => simpa [hsh] using hperm hsh
    | false => simp [hsh]
  have hne : (if l.shuffle then perm h.len else List.range h.len) ≠ [] := by
    intro hcon
    rw [hcon] at hxs
    exact hlen hxs.symm
  obtain ⟨pre, lst, hchunk, hpre, hlst⟩ :=
    chunk_shape l.batch_size hB _ hne
  refine ⟨chunk l.batch_size (if l.shuffle then perm h.len else List.range h.len),
    pre, lst, ?_, hchunk, ?_, ?_, hpre, ?_⟩
  · simp only [loaderRun, hd]
  · rw [chunk_length l.batch_size hB, hxs]
  · rw [chunk_sum_length l.batch_size hB, hxs]
  · rw [hlst, hxs]
    have hmd := Nat.mod_add_div h.len l.batch_size
    rcases Nat.eq_zero_or_pos (h.len % l.batch_size) with hz | hp
    · rw [if_pos hz, if_pos hz]
    · rw [if_neg (by omega), if_neg (by omega)]
      generalize hq : l.batch_size * (h.len / l.batch_size) = q at hmd
      omega

/-- C6 (loader batch shape): for every resolved partition of length
`N > 0` and batch size `B > 0`, one full run of the corresponding loader
yields exactly `(N + B - 1)/B = ⌈N/B⌉` batches whose sizes sum to `N`;
all but the last batch have size `B`, and the last has size
`N - B*⌊N/B⌋`, or `B` when `B` divides `N`.  For the train loader this
holds for every epoch permutation of the right length; for the
validation/test loaders unconditionally. -/
theorem claim_C6 (s : DM) (perm : Nat → List Nat) :
    (∀ h, s.data_val = some h → h.len ≠ 0 → s.batch_size ≠ 0 →
      ∃ bs pre lst, loaderRun (val_dataloader s) perm = some bs ∧
        bs = pre ++ [lst] ∧
        bs.length = (h.len + s.batch_size - 1) / s.batch_size ∧
        (bs.map List.length).sum = h.len ∧
        (∀ b ∈ pre, b.length = s.batch_size) ∧
        lst.length = (if h.len % s.batch_size = 0 then s.batch_size
          else h.len - s.batch_size * (h.len / s.batch_size))) ∧
    (∀ h, s.data_test = some h → h.len ≠ 0 → s.batch_size ≠ 0 →
      ∃ bs pre lst, loaderRun (test_dataloader s) perm = some bs ∧
        bs = pre ++ [lst] ∧
        bs.length = (h.len + s.batch_size - 1) / s.batch_size ∧
        (bs.map List.length).sum = h.len ∧
        (∀ b ∈ pre, b.length = s.batch_size) ∧
        lst.length = (if h.len % s.batch_size = 0 then s.batch_size
          else h.len - s.batch_size * (h.len / s.batch_size))) ∧
    (∀ h, s.data_train = some h → h.len ≠ 0 → s.batch_size ≠ 0 →
      (perm h.len).length = h.len →
      ∃ bs pre lst, loaderRun (train_dataloader s) perm = some bs ∧
        bs = pre ++ [lst] ∧
        bs.length = (h.len + s.batch_size - 1) / s.batch_size ∧
        (bs.map List.length).sum = h.len ∧
        (∀ b ∈ pre, b.length = s.batch_size) ∧
        lst.length = (if h.len % s.batch_size = 0 then s.batch_size
          else h.len - s.batch_size * (h.len / s.batch_size))) := by
  refine ⟨fun h hs hlen hB => ?_, fun h hs hlen hB => ?_,
    fun h hs hlen hB hperm => ?_⟩
  · exact loaderRun_shape (val_dataloader s) h perm (by simp [val_dataloader, hs])
      hB hlen (by simp [val_dataloader])
  · exact loaderRun_shape (test_dataloader s) h perm (by simp [test_dataloader, hs])
      hB hlen (by simp [test_dataloader])
  · exact loaderRun_shape (train_dataloader s) h perm
      (by simp [train_dataloader, hs]) hB hlen (fun _ => hperm)

/-- C6 witness: five samples at batch size four give two batches — the
full one and a final one of size one — summing to five. -/
theorem claim_C6_witness :
    ∃ bs pre lst,
      loaderRun (val_dataloader (setup envFive none dmB4).1)
        (fun n => List.range n) = some bs ∧
      bs = pre ++ [lst] ∧
      bs.length = 2 ∧
      (bs.map List.length).sum = 5 ∧
      (∀ b ∈ pre, b.length = 4) ∧
      lst.length = 1 :=
  (claim_C6 (setup envFive none dmB4).1 (fun n => List.range n)).1
    ⟨"va", 1, 5, dmB4.val_transform⟩ (by decide) (by decide) (by decide)

/-! ### Helpers for the predict-slot coupling claim -/

theorem valStages_ne_predict (stage : Option String) (h : stage ∈ valStages) :
    stage ≠ some "predict" := by
  simp only [valStages, List.mem_cons, List.not_mem_nil, or_false] at h
  rcases h with h | h | h <;> subst h <;> decide

theorem pbind_predict_frame (env : String → Nat) (stage : Option String)
    (r : DM × Option DMError) (hstage : stage ≠ some "predict") :
    (pbind r fun s2 => setupPredictPhase env stage s2).1 = r.1 := by
  rcases r with ⟨s2, e2⟩
  cases e2 with
  | some e => rw [pbind_err]
  | none =>
    rw [pbind_ok, predictPhase_not_mem env stage s2 hstage]

/-- When the adapter cannot return an empty train dataset, the first
`setup` block never raises and leaves the validation/test bookkeeping
fields unchanged while not decreasing the invocation counter. -/
theorem trainPhase_ok_facts (env : String → Nat) (stage : Option String)
    (s : DM) (hne : env s.ds_train ≠ 0) :
    (setupTrainPhase env stage s).2 = none ∧
    (setupTrainPhase env stage s).1.data_test = s.data_test ∧
    (setupTrainPhase env stage s).1.ds_val = s.ds_val ∧
    (setupTrainPhase env stage s).1.data_val = s.data_val ∧
    s.calls ≤ (setupTrainPhase env stage s).1.calls := by
  by_cases hmem : stage ∈ trainStages
  · cases hdt : s.data_train with
    | some a => rw [trainPhase_resolved env stage s a hdt]; simp
    | none =>
      rw [trainPhase_go env stage s hmem hdt]
      refine ⟨by simp [hne], rfl, rfl, rfl, by simp⟩
  · rw [trainPhase_not_mem env stage s hmem]; simp

/-- With the test slot unresolved and a non-empty validation source, the
second `setup` block resolves the test slot and invokes the adapter at
least once (the invocation counter strictly increases). -/
theorem valTestPhase_resolves_test (env : String → Nat) (stage : Option String)
    (s2 : DM) (hmem : stage ∈ valStages) (hdt : s2.data_test = none)
    (hval : env s2.ds_val ≠ 0) :
    (setupValTestPhase env stage s2).1.data_test ≠ none ∧
    s2.calls < (setupValTestPhase env stage s2).1.calls := by
  cases hdv : s2.data_val with
  | some hv =>
    rw [valTestPhase_val_resolved_test_none env stage s2 hv hmem hdv hdt]
    exact ⟨by simp, by simp⟩
  | none =>
    rw [valTestPhase_val_go_test_go env stage s2 hmem hdv hval hdt]
    exact ⟨by simp, by simp; omega⟩

/-- C10 (implicit; actual predict behavior): with the test slot
unresolved, `setup('predict')` stores the freshly-resolved handle (built
from the test source reference and the test pipeline) in the separate
`data_predict` slot and leaves `data_test` unresolved, consuming one
adapter invocation.  Consequently a repeated `setup('predict')` invokes
the adapter again and replaces the predict handle with one of a fresh
`callId`, and a later `setup('validation')`, `setup('fit')` or
`setup(None)` (when neither the train nor the validation source is
empty) resolves the test slot by invoking the adapter anew - the
invocation counter strictly increases. -/
theorem claim_C10 (env : String → Nat) (s : DM) (hts : s.data_test = none) :
    (setup env (some "predict") s).1.data_predict =
      some ⟨s.ds_test, s.calls, env s.ds_test, s.test_transform⟩ ∧
    (setup env (some "predict") s).1.data_test = none ∧
    (setup env (some "predict") s).1.calls = s.calls + 1 ∧
    (setup env (some "predict")
        (setup env (some "predict") s).1).1.data_predict =
      some ⟨s.ds_test, s.calls + 1, env s.ds_test, s.test_transform⟩ ∧
    (setup env (some "predict")
        (setup env (some "predict") s).1).1.calls = s.calls + 2 ∧
    (∀ stage, stage ∈ valStages → env s.ds_train ≠ 0 → env s.ds_val ≠ 0 →
      (setup env stage (setup env (some "predict") s).1).1.data_test ≠ none ∧
      (setup env (some "predict") s).1.calls <
        (setup env stage (setup env (some "predict") s).1).1.calls) := by
  have hs1 : (setup env (some "predict") s).1 =
      { s with
        data_predict := some ⟨s.ds_test, s.calls, env s.ds_test, s.test_transform⟩,
        calls := s.calls + 1 } := by
    rw [setup_predict_eq, predictPhase_go env s hts]
  refine ⟨?_, ?_, ?_, ?_, ?_, ?_⟩
  · rw [hs1]
  · rw [hs1]; exact hts
  · rw [hs1]
  · rw [hs1, setup_predict_eq,
      predictPhase_go env
        { s with
          data_predict :=
            some ⟨s.ds_test, s.calls, env s.ds_test, s.test_transform⟩,
          calls := s.calls + 1 } hts]
  · rw [hs1, setup_predict_eq,
      predictPhase_go env
        { s with
          data_predict :=
            some ⟨s.ds_test, s.calls, env s.ds_test, s.test_transform⟩,
          calls := s.calls + 1 } hts]
  · intro stage hmem htr0 hval0
    rw [hs1]
    unfold setup
    rcases htrp : setupTrainPhase env stage
        { s with
          data_predict :=
            some ⟨s.ds_test, s.calls, env s.ds_test, s.test_transform⟩,
          calls := s.calls + 1 } with ⟨s2, e2⟩
    have hfacts := trainPhase_ok_facts env stage
      { s with
        data_predict :=
          some ⟨s.ds_test, s.calls, env s.ds_test, s.test_transform⟩,
        calls := s.calls + 1 } htr0
    rw [htrp] at hfacts
    obtain ⟨he2, hdt2, hdsv2, -, hcalls2⟩ := hfacts
    have he2n : e2 = none := he2
    subst he2n
    rw [pbind_ok, pbind_predict_frame env stage _ (valStages_ne_predict stage hmem)]
    have hdt2n : s2.data_test = none := by rw [hdt2]; exact hts
    have hval2 : env s2.ds_val ≠ 0 := by rw [hdsv2]; exact hval0
    obtain ⟨hA, hB⟩ := valTestPhase_resolves_test env stage s2 hmem hdt2n hval2
    exact ⟨hA, lt_of_le_of_lt hcalls2 hB⟩

/-- C10 witness: on the fresh fixture, `setup('predict')` stores the
handle in the predict slot, and a following `setup('validation')`
resolves the test slot anew. -/
theorem claim_C10_witness :
    (setup envFive (some "predict") dmFresh).1.data_predict =
      some ⟨"te", 0, 5, dmFresh.test_transform⟩ ∧
    (setup envFive (some "validation")
        (setup envFive (some "predict") dmFresh).1).1.data_test ≠ none := by
  have h := claim_C10 envFive dmFresh rfl
  exact ⟨h.1, (h.2.2.2.2.2 (some "validation") (by decide) (by decide)
    (by decide)).1⟩

end BCC
